import Mathlib

deriving instance DecidableEq for Except

/-!
Verification development for the FreeTezz escrow backend (`server.js`).

The embedding below translates the Express route handlers of `server.js`
into pure Lean functions.  The in-memory `jobs` object becomes an explicit
association list (`Store`); the clock (`now()`) and the id generator
(`crypto.randomBytes`) become explicit parameters; JavaScript truthiness
checks on required string fields (`!title`, `!fromPkh`, ...) become
emptiness checks, since the fields are strings in every request shape
accepted by the handlers.  Each route returns early on failures before any
mutation, which the embedding mirrors by returning `Except` values.
-/

/-- Job lifecycle statuses appearing in `server.js` (`OPEN`, `ACCEPTED`,
`FUNDED`, `SUBMITTED`, `DISPUTED`, `RELEASED`). -/
inductive Status
  | OPEN
  | ACCEPTED
  | FUNDED
  | SUBMITTED
  | DISPUTED
  | RELEASED
deriving DecidableEq, Repr

/-- The `submission` record set by the submit handler:
`job.submission = { workUrl, at: now() }`. -/
structure Submission where
  workUrl : String
  atTime : Nat
deriving DecidableEq, Repr

/-- The `dispute` record set by the dispute handler:
`job.dispute = { by: pkh, reason, at: now() }`. -/
structure DisputeRec where
  raisedBy : String
  reason : String
  atTime : Nat
deriving DecidableEq, Repr

/-- The `release` record set by the release-confirm handler:
`job.release = { opHash, at: now() }`. -/
structure ReleaseRec where
  opHash : String
  atTime : Nat
deriving DecidableEq, Repr

/-- A job record as built and mutated by `server.js`.  The nested
`escrow: { deposited, opHashes }` object is flattened into the two fields
`escrowDeposited` and `escrowOpHashes`.  Fields that are absent until set
(`freelancerAddress`, `submission`, `dispute`, `release`) are `Option`s.
Timestamps are abstract `Nat` clock values. -/
structure Job where
  id : String
  title : String
  description : String
  amountMutez : Int
  currency : String
  clientAddress : String
  freelancerAddress : Option String
  status : Status
  createdAt : Nat
  updatedAt : Nat
  escrowDeposited : Int
  escrowOpHashes : List String
  submission : Option Submission
  dispute : Option DisputeRec
  release : Option ReleaseRec
deriving DecidableEq, Repr

/-- Error outcomes of the handlers, keyed by the HTTP status and message
family used in `server.js`: 404 "Job not found" (`notFound`), 400 missing
required body fields (`validation`), 403 identity mismatch (`forbidden`),
400 "Cannot ... in status ..." (`invalidTransition`, carrying the current
status and the attempted action), 400 "ESCROW_ADDRESS not configured"
(`misconfigured`). -/
inductive ApiError
  | notFound
  | validation (msg : String)
  | forbidden (msg : String)
  | invalidTransition (current : Status) (action : String)
  | misconfigured (msg : String)
deriving DecidableEq, Repr

/-- An element of the `operationDetails` array returned by the prepare
handlers: `{ kind: 'transaction', destination, amount: String(mutez) }`.
The `amount` field is a string in the source (`String(amountMutez)`). -/
structure Operation where
  kind : String
  destination : String
  amount : String
deriving DecidableEq, Repr

/-- `toMutez` from `server.js`:
`function toMutez(xtz) { return Math.round(Number(xtz || 0) * 1_000_000); }`.
The argument is a number at every call site (the handler checks
`typeof amountTez === 'number'` first), so `xtz || 0` is the identity and
`Math.round` is floor of the value plus one half. -/
def toMutez (xtz : ℚ) : Int := ⌊xtz * 1000000 + 1 / 2⌋

/-- The job object built by `POST /api/jobs`:
status `OPEN`, currency `XTZ`, no freelancer, `escrow: { deposited: 0,
opHashes: [] }`, and no submission, dispute or release records. -/
def createJob (id title description : String) (amountMutez : Int)
    (clientAddress : String) (t : Nat) : Job where
  id := id
  title := title
  description := description
  amountMutez := amountMutez
  currency := "XTZ"
  clientAddress := clientAddress
  freelancerAddress := none
  status := .OPEN
  createdAt := t
  updatedAt := t
  escrowDeposited := 0
  escrowOpHashes := []
  submission := none
  dispute := none
  release := none

/-- `POST /api/jobs/:id/accept` after the job lookup: requires a non-empty
`freelancerPkh`, requires status `OPEN`, then assigns the freelancer and
moves to `ACCEPTED`. -/
def acceptJob (freelancerPkh : String) (t : Nat) (j : Job) :
    Except ApiError Job :=
  if freelancerPkh = "" then
    .error (.validation "freelancerPkh is required")
  else if j.status ≠ .OPEN then
    .error (.invalidTransition j.status "accept")
  else
    .ok { j with freelancerAddress := some freelancerPkh,
                 status := .ACCEPTED, updatedAt := t }

/-- `POST /api/jobs/:id/submit` after the job lookup: requires non-empty
`freelancerPkh` and `workUrl`, requires the caller to be the assigned
freelancer (`job.freelancerAddress !== freelancerPkh` is a 403), requires
status `ACCEPTED` or `FUNDED`, then records the submission and moves to
`SUBMITTED`. -/
def submitJob (freelancerPkh workUrl : String) (t : Nat) (j : Job) :
    Except ApiError Job :=
  if freelancerPkh = "" ∨ workUrl = "" then
    .error (.validation "freelancerPkh and workUrl are required")
  else if j.freelancerAddress ≠ some freelancerPkh then
    .error (.forbidden "Only assigned freelancer can submit")
  else if j.status ≠ .ACCEPTED ∧ j.status ≠ .FUNDED then
    .error (.invalidTransition j.status "submit")
  else
    .ok { j with submission := some ⟨workUrl, t⟩,
                 status := .SUBMITTED, updatedAt := t }

/-- `POST /api/jobs/:id/dispute` after the job lookup: requires non-empty
`pkh` and `reason`, then records the dispute and moves to `DISPUTED`.  The
source performs no identity check and no status check here. -/
def disputeJob (pkh reason : String) (t : Nat) (j : Job) :
    Except ApiError Job :=
  if pkh = "" ∨ reason = "" then
    .error (.validation "pkh and reason are required")
  else
    .ok { j with dispute := some ⟨pkh, reason, t⟩,
                 status := .DISPUTED, updatedAt := t }

/-- `POST /api/jobs/:id/deposit/prepare` after the job lookup: requires a
non-empty `fromPkh` (with a numeric `amountTez`), requires the caller to be
the client, requires a non-empty `ESCROW_ADDRESS` in the environment, and
returns `operationDetails` without touching the job.  `process.env` yields
a string or `undefined`, hence the `Option String` parameter; the source
guard `!ESCROW_ADDRESS` also rejects the empty string. -/
def depositPrepareJob (escrowAddress : Option String) (fromPkh : String)
    (amountTez : ℚ) (j : Job) : Except ApiError (List Operation) :=
  if fromPkh = "" then
    .error (.validation "fromPkh and amountTez are required")
  else if j.clientAddress ≠ fromPkh then
    .error (.forbidden "Only client can deposit")
  else
    match escrowAddress with
    | none => .error (.misconfigured "ESCROW_ADDRESS not configured on server (.env)")
    | some ea =>
      if ea = "" then
        .error (.misconfigured "ESCROW_ADDRESS not configured on server (.env)")
      else
        .ok [⟨"transaction", ea, toString (toMutez amountTez)⟩]

/-- `POST /api/jobs/:id/deposit/confirm` after the job lookup: requires
non-empty `fromPkh` and `opHash` and that the caller is the client; it
performs no status check, sets `escrow.deposited = job.amountMutez`,
pushes `opHash`, and moves to `FUNDED`. -/
def depositConfirmJob (fromPkh opHash : String) (t : Nat) (j : Job) :
    Except ApiError Job :=
  if fromPkh = "" ∨ opHash = "" then
    .error (.validation "fromPkh and opHash are required")
  else if j.clientAddress ≠ fromPkh then
    .error (.forbidden "Only client can confirm")
  else
    .ok { j with escrowDeposited := j.amountMutez,
                 escrowOpHashes := j.escrowOpHashes ++ [opHash],
                 status := .FUNDED, updatedAt := t }

/-- `POST /api/jobs/:id/release/prepare` after the job lookup: requires a
non-empty `clientPkh`, that the caller is the client, a truthy
`job.freelancerAddress`, and status `SUBMITTED` or `FUNDED`; it returns
`operationDetails` paying the freelancer, without touching the job. -/
def releasePrepareJob (clientPkh : String) (j : Job) :
    Except ApiError (List Operation) :=
  if clientPkh = "" then
    .error (.validation "clientPkh is required")
  else if j.clientAddress ≠ clientPkh then
    .error (.forbidden "Only client can release")
  else
    match j.freelancerAddress with
    | none => .error (.validation "No freelancer assigned")
    | some fa =>
      if fa = "" then
        .error (.validation "No freelancer assigned")
      else if j.status ≠ .SUBMITTED ∧ j.status ≠ .FUNDED then
        .error (.invalidTransition j.status "release")
      else
        .ok [⟨"transaction", fa, toString j.amountMutez⟩]

/-- `POST /api/jobs/:id/release/confirm` after the job lookup: requires
non-empty `clientPkh` and `opHash` and that the caller is the client; it
performs no status check, moves to `RELEASED` and records
`release = { opHash, at }`. -/
def releaseConfirmJob (clientPkh opHash : String) (t : Nat) (j : Job) :
    Except ApiError Job :=
  if clientPkh = "" ∨ opHash = "" then
    .error (.validation "clientPkh and opHash are required")
  else if j.clientAddress ≠ clientPkh then
    .error (.forbidden "Only client can confirm")
  else
    .ok { j with status := .RELEASED, updatedAt := t,
                 release := some ⟨opHash, t⟩ }

/-! ### The store and the full request surface -/

/-- The in-memory `jobs` object of `server.js`, as an association list from
job id to record (`jobs = loadDB()`; `jobs[id] = job`). -/
abbrev Store := List (String × Job)

/-- Lookup `jobs[id]`. -/
def Store.getJob (s : Store) (id : String) : Option Job :=
  s.lookup id

/-- Assignment `jobs[id] = job`: overwrite the entry when the key is
present, append it otherwise. -/
def Store.setJob (s : Store) (id : String) (j : Job) : Store :=
  if (s.lookup id).isSome then
    s.map (fun p => if p.1 = id then (id, j) else p)
  else
    s ++ [(id, j)]

/-- The mutating and preparing requests handled by `server.js`, with the
request-body fields of each route. -/
inductive Request
  | create (title : String) (amountMutez : Int) (clientAddress description : String)
  | getJob (id : String)
  | accept (id freelancerPkh : String)
  | submit (id freelancerPkh workUrl : String)
  | dispute (id pkh reason : String)
  | depositPrepare (id fromPkh : String) (amountTez : ℚ)
  | depositConfirm (id fromPkh opHash : String)
  | releasePrepare (id clientPkh : String)
  | releaseConfirm (id clientPkh opHash : String)

/-- Successful response bodies: `{ id, job }` for create, the bare job for
get, `{ ok: true, job }` for the mutating routes, `{ operationDetails }`
for the prepare routes. -/
inductive Resp
  | created (id : String) (j : Job)
  | jobResp (j : Job)
  | okJob (j : Job)
  | ops (l : List Operation)
deriving DecidableEq, Repr

/-- One request handled against the store, as in `server.js`: the job is
looked up (404 when absent), the per-job handler runs, and on success the
updated record is stored (`jobs[id] = job; saveDB(jobs)`).  `escrowAddress`
is `process.env.ESCROW_ADDRESS`, `newId` the id produced by
`crypto.randomBytes` for this call, `t` the clock value. -/
def handle (escrowAddress : Option String) (newId : String) (t : Nat)
    (req : Request) (s : Store) : Store × Except ApiError Resp :=
  match req with
  | .create title amountMutez clientAddress description =>
    if title = "" ∨ clientAddress = "" then
      (s, .error (.validation "title, amountMutez, clientAddress are required"))
    else
      let j := createJob newId title description amountMutez clientAddress t
      (s.setJob newId j, .ok (.created newId j))
  | .getJob id =>
    match s.getJob id with
    | none => (s, .error .notFound)
    | some j => (s, .ok (.jobResp j))
  | .accept id freelancerPkh =>
    match s.getJob id with
    | none => (s, .error .notFound)
    | some j =>
      match acceptJob freelancerPkh t j with
      | .error e => (s, .error e)
      | .ok j2 => (s.setJob id j2, .ok (.okJob j2))
  | .submit id freelancerPkh workUrl =>
    match s.getJob id with
    | none => (s, .error .notFound)
    | some j =>
      match submitJob freelancerPkh workUrl t j with
      | .error e => (s, .error e)
      | .ok j2 => (s.setJob id j2, .ok (.okJob j2))
  | .dispute id pkh reason =>
    match s.getJob id with
    | none => (s, .error .notFound)
    | some j =>
      match disputeJob pkh reason t j with
      | .error e => (s, .error e)
      | .ok j2 => (s.setJob id j2, .ok (.okJob j2))
  | .depositPrepare id fromPkh amountTez =>
    match s.getJob id with
    | none => (s, .error .notFound)
    | some j =>
      match depositPrepareJob escrowAddress fromPkh amountTez j with
      | .error e => (s, .error e)
      | .ok l => (s, .ok (.ops l))
  | .depositConfirm id fromPkh opHash =>
    match s.getJob id with
    | none => (s, .error .notFound)
    | some j =>
      match depositConfirmJob fromPkh opHash t j with
      | .error e => (s, .error e)
      | .ok j2 => (s.setJob id j2, .ok (.okJob j2))
  | .releasePrepare id clientPkh =>
    match s.getJob id with
    | none => (s, .error .notFound)
    | some j =>
      match releasePrepareJob clientPkh j with
      | .error e => (s, .error e)
      | .ok l => (s, .ok (.ops l))
  | .releaseConfirm id clientPkh opHash =>
    match s.getJob id with
    | none => (s, .error .notFound)
    | some j =>
      match releaseConfirmJob clientPkh opHash t j with
      | .error e => (s, .error e)
      | .ok j2 => (s.setJob id j2, .ok (.okJob j2))

/-! ### Per-job action sequences and reachability

The five mutating actions on an existing job.  The two prepare routes
never change the stored job (`handle` returns the store unchanged for
them), so the set of reachable job records is generated by these five
actions applied after `createJob`. -/

/-- A mutating action on one job, with its body fields and clock value. -/
inductive JobAction
  | accept (freelancerPkh : String) (t : Nat)
  | submit (freelancerPkh workUrl : String) (t : Nat)
  | dispute (pkh reason : String) (t : Nat)
  | depositConfirm (fromPkh opHash : String) (t : Nat)
  | releaseConfirm (clientPkh opHash : String) (t : Nat)
deriving DecidableEq, Repr

/-- Dispatch one action to its per-job handler. -/
def stepJob (a : JobAction) (j : Job) : Except ApiError Job :=
  match a with
  | .accept freelancerPkh t => acceptJob freelancerPkh t j
  | .submit freelancerPkh workUrl t => submitJob freelancerPkh workUrl t j
  | .dispute pkh reason t => disputeJob pkh reason t j
  | .depositConfirm fromPkh opHash t => depositConfirmJob fromPkh opHash t j
  | .releaseConfirm clientPkh opHash t => releaseConfirmJob clientPkh opHash t j

/-- Apply one action to a stored job: a failing action leaves the stored
record unchanged, a successful one replaces it. -/
def applyAction (j : Job) (a : JobAction) : Job :=
  match stepJob a j with
  | .error _ => j
  | .ok j2 => j2

/-- Run a whole action sequence against a stored job. -/
def runActions (j : Job) (as : List JobAction) : Job :=
  as.foldl applyAction j

/-- Apply one action to a stored job while counting whether it was a
successful deposit-confirm. -/
def stepCount (p : Job × Nat) (a : JobAction) : Job × Nat :=
  match stepJob a p.1 with
  | .error _ => p
  | .ok j2 =>
    match a with
    | .depositConfirm _ _ _ => (j2, p.2 + 1)
    | _ => (j2, p.2)

/-- Run an action sequence while counting the deposit-confirm calls that
succeeded. -/
def runCount (p : Job × Nat) (as : List JobAction) : Job × Nat :=
  as.foldl stepCount p

/-- A job record reachable through the service: built by a valid create
call (non-empty title and client address) followed by any sequence of
actions. -/
def ReachableJob (j : Job) : Prop :=
  ∃ id title description amountMutez clientAddress t as,
    title ≠ "" ∧ clientAddress ≠ "" ∧
    j = runActions (createJob id title description amountMutez clientAddress t) as

/-! ### Success characterizations of the mutating handlers -/

/-- A successful accept requires status `OPEN` and yields exactly the
assignment performed by the route. -/
theorem acceptJob_ok {freelancerPkh : String} {t : Nat} {j j2 : Job}
    (h : acceptJob freelancerPkh t j = .ok j2) :
    freelancerPkh ≠ "" ∧ j.status = .OPEN ∧
      j2 = { j with freelancerAddress := some freelancerPkh,
                    status := .ACCEPTED, updatedAt := t } := by
  unfold acceptJob at h
  repeat' split at h
  all_goals simp_all

/-- A successful submit requires the assigned freelancer and status
`ACCEPTED` or `FUNDED`, and yields exactly the route's update. -/
theorem submitJob_ok {freelancerPkh workUrl : String} {t : Nat} {j j2 : Job}
    (h : submitJob freelancerPkh workUrl t j = .ok j2) :
    freelancerPkh ≠ "" ∧ workUrl ≠ "" ∧
      j.freelancerAddress = some freelancerPkh ∧
      (j.status = .ACCEPTED ∨ j.status = .FUNDED) ∧
      j2 = { j with submission := some ⟨workUrl, t⟩,
                    status := .SUBMITTED, updatedAt := t } := by
  unfold submitJob at h
  repeat' split at h
  all_goals simp_all
  all_goals tauto

/-- A successful dispute requires only non-empty `pkh` and `reason`, and
yields exactly the route's update. -/
theorem disputeJob_ok {pkh reason : String} {t : Nat} {j j2 : Job}
    (h : disputeJob pkh reason t j = .ok j2) :
    pkh ≠ "" ∧ reason ≠ "" ∧
      j2 = { j with dispute := some ⟨pkh, reason, t⟩,
                    status := .DISPUTED, updatedAt := t } := by
  unfold disputeJob at h
  repeat' split at h
  all_goals simp_all

/-- A successful deposit-confirm requires only non-empty fields and the
client identity — no status precondition — and yields exactly the route's
update. -/
theorem depositConfirmJob_ok {fromPkh opHash : String} {t : Nat} {j j2 : Job}
    (h : depositConfirmJob fromPkh opHash t j = .ok j2) :
    fromPkh ≠ "" ∧ opHash ≠ "" ∧ j.clientAddress = fromPkh ∧
      j2 = { j with escrowDeposited := j.amountMutez,
                    escrowOpHashes := j.escrowOpHashes ++ [opHash],
                    status := .FUNDED, updatedAt := t } := by
  unfold depositConfirmJob at h
  repeat' split at h
  all_goals simp_all

/-- A successful release-confirm requires only non-empty fields and the
client identity — no status precondition — and yields exactly the route's
update. -/
theorem releaseConfirmJob_ok {clientPkh opHash : String} {t : Nat} {j j2 : Job}
    (h : releaseConfirmJob clientPkh opHash t j = .ok j2) :
    clientPkh ≠ "" ∧ opHash ≠ "" ∧ j.clientAddress = clientPkh ∧
      j2 = { j with status := .RELEASED, updatedAt := t,
                    release := some ⟨opHash, t⟩ } := by
  unfold releaseConfirmJob at h
  repeat' split at h
  all_goals simp_all

/-! ### Transition edges -/

/-- Modelled from the spec: the transition table of spec section 4.1 as the
claim states it — accept `OPEN -> ACCEPTED`, deposit-confirm
`ACCEPTED -> FUNDED`, submit `{ACCEPTED, FUNDED} -> SUBMITTED`,
release-confirm `{SUBMITTED, FUNDED} -> RELEASED`, dispute
`any -> DISPUTED`.  This definition follows the spec wording, to be
compared against the behavior of the embedded handlers. -/
def specClaimedEdge (src : Status) (a : JobAction) (dst : Status) : Bool :=
  match a with
  | .accept _ _ => src == .OPEN && dst == .ACCEPTED
  | .depositConfirm _ _ _ => src == .ACCEPTED && dst == .FUNDED
  | .submit _ _ _ => (src == .ACCEPTED || src == .FUNDED) && dst == .SUBMITTED
  | .releaseConfirm _ _ _ => (src == .SUBMITTED || src == .FUNDED) && dst == .RELEASED
  | .dispute _ _ _ => dst == .DISPUTED

/-- The transition edges actually realized by the handlers of `server.js`:
accept still requires `OPEN` and submit still requires `ACCEPTED` or
`FUNDED`, but deposit-confirm and release-confirm perform no status check
and move to `FUNDED` resp. `RELEASED` from any status, like dispute moves
to `DISPUTED` from any status. -/
def codeEdge (src : Status) (a : JobAction) (dst : Status) : Bool :=
  match a with
  | .accept _ _ => src == .OPEN && dst == .ACCEPTED
  | .submit _ _ _ => (src == .ACCEPTED || src == .FUNDED) && dst == .SUBMITTED
  | .dispute _ _ _ => dst == .DISPUTED
  | .depositConfirm _ _ _ => dst == .FUNDED
  | .releaseConfirm _ _ _ => dst == .RELEASED

/-- Every successful action lands on an edge of the realized table. -/
theorem stepJob_codeEdge {a : JobAction} {j j2 : Job}
    (h : stepJob a j = .ok j2) : codeEdge j.status a j2.status = true := by
  cases a with
  | accept fp t =>
    rcases acceptJob_ok h with ⟨-, h1, h2⟩
    subst h2
    simp [codeEdge, h1]
  | submit fp wu t =>
    rcases submitJob_ok h with ⟨-, -, -, h1, h2⟩
    subst h2
    rcases h1 with h1 | h1 <;> simp [codeEdge, h1]
  | dispute pk rs t =>
    rcases disputeJob_ok h with ⟨-, -, h2⟩
    subst h2
    simp [codeEdge]
  | depositConfirm fp oh t =>
    rcases depositConfirmJob_ok h with ⟨-, -, -, h2⟩
    subst h2
    simp [codeEdge]
  | releaseConfirm cp oh t =>
    rcases releaseConfirmJob_ok h with ⟨-, -, -, h2⟩
    subst h2
    simp [codeEdge]

/-! ### Invariants preserved along every action sequence -/

/-- Record invariant: a `RELEASED` job carries a release record, and a job
in `ACCEPTED` or `SUBMITTED` has a freelancer assigned. -/
def JobInv (j : Job) : Prop :=
  (j.status = .RELEASED → j.release.isSome) ∧
  ((j.status = .ACCEPTED ∨ j.status = .SUBMITTED) → j.freelancerAddress.isSome)

/-- Fresh jobs satisfy the record invariant. -/
theorem jobInv_create (id title description : String) (amountMutez : Int)
    (clientAddress : String) (t : Nat) :
    JobInv (createJob id title description amountMutez clientAddress t) := by
  simp [JobInv, createJob]

/-- One action preserves the record invariant. -/
theorem jobInv_step (j : Job) (a : JobAction) (h : JobInv j) :
    JobInv (applyAction j a) := by
  unfold applyAction
  cases hs : stepJob a j with
  | error e => exact h
  | ok j2 =>
    cases a with
    | accept fp t =>
      rcases acceptJob_ok hs with ⟨-, -, h2⟩
      subst h2
      simp [JobInv]
    | submit fp wu t =>
      rcases submitJob_ok hs with ⟨-, -, h1, -, h2⟩
      subst h2
      simp [JobInv, h1]
    | dispute pk rs t =>
      rcases disputeJob_ok hs with ⟨-, -, h2⟩
      subst h2
      simp [JobInv]
    | depositConfirm fp oh t =>
      rcases depositConfirmJob_ok hs with ⟨-, -, -, h2⟩
      subst h2
      simp [JobInv]
    | releaseConfirm cp oh t =>
      rcases releaseConfirmJob_ok hs with ⟨-, -, -, h2⟩
      subst h2
      simp [JobInv]

/-- A whole action sequence preserves the record invariant. -/
theorem jobInv_run (j : Job) (as : List JobAction) (h : JobInv j) :
    JobInv (runActions j as) := by
  induction as generalizing j with
  | nil => exact h
  | cons a as ih =>
    simpa [runActions] using ih (applyAction j a) (jobInv_step j a h)

/-- The counting run applies exactly the same job updates as the plain
run. -/
theorem runCount_fst (p : Job × Nat) (as : List JobAction) :
    (runCount p as).1 = runActions p.1 as := by
  induction as generalizing p with
  | nil => rfl
  | cons a as ih =>
    have hstep : (stepCount p a).1 = applyAction p.1 a := by
      unfold stepCount applyAction
      cases stepJob a p.1 <;> cases a <;> rfl
    simp only [runCount, runActions, List.foldl_cons] at *
    rw [ih (stepCount p a), hstep]

/-- Escrow invariant: the op-hash list has one entry per successful
deposit-confirm, and `escrow.deposited` is 0 before the first successful
deposit-confirm and equal to `amountMutez` afterwards. -/
def EscInv (p : Job × Nat) : Prop :=
  p.1.escrowOpHashes.length = p.2 ∧
  (p.2 = 0 → p.1.escrowDeposited = 0) ∧
  (p.2 ≠ 0 → p.1.escrowDeposited = p.1.amountMutez)

/-- One counted action preserves the escrow invariant. -/
theorem escInv_step (p : Job × Nat) (a : JobAction) (h : EscInv p) :
    EscInv (stepCount p a) := by
  unfold stepCount
  cases hs : stepJob a p.1 with
  | error e => exact h
  | ok j2 =>
    rcases h with ⟨hlen, hzero, hpos⟩
    cases a with
    | accept fp t =>
      rcases acceptJob_ok hs with ⟨-, -, h2⟩
      subst h2
      exact ⟨hlen, hzero, hpos⟩
    | submit fp wu t =>
      rcases submitJob_ok hs with ⟨-, -, -, -, h2⟩
      subst h2
      exact ⟨hlen, hzero, hpos⟩
    | dispute pk rs t =>
      rcases disputeJob_ok hs with ⟨-, -, h2⟩
      subst h2
      exact ⟨hlen, hzero, hpos⟩
    | depositConfirm fp oh t =>
      rcases depositConfirmJob_ok hs with ⟨-, -, -, h2⟩
      subst h2
      refine ⟨by simpa using hlen, by simp, by simp⟩
    | releaseConfirm cp oh t =>
      rcases releaseConfirmJob_ok hs with ⟨-, -, -, h2⟩
      subst h2
      exact ⟨hlen, hzero, hpos⟩

/-- A whole counted action sequence preserves the escrow invariant. -/
theorem escInv_run (p : Job × Nat) (as : List JobAction) (h : EscInv p) :
    EscInv (runCount p as) := by
  induction as generalizing p with
  | nil => exact h
  | cons a as ih =>
    simpa [runCount] using ih (stepCount p a) (escInv_step p a h)

/-! ### Concrete fixtures -/

/-- A concrete freshly created job: valid title and client address, amount
5 mutez. -/
def demoJob : Job := createJob "j1" "Job" "" 5 "client" 0

/-! ### Claims -/

/-- Claim C1, counterexample: on the freshly created job (status `OPEN`),
a deposit-confirm with the correct client identity succeeds and moves the
status straight to `FUNDED`; the edge `OPEN -> FUNDED` for deposit-confirm
is not in the section 4.1 table the claim states. -/
theorem C1_spec_table_counterexample :
    demoJob.status = Status.OPEN ∧
    stepJob (JobAction.depositConfirm "client" "h1" 1) demoJob =
      .ok { demoJob with escrowDeposited := 5, escrowOpHashes := ["h1"],
                         status := .FUNDED, updatedAt := 1 } ∧
    specClaimedEdge Status.OPEN (JobAction.depositConfirm "client" "h1" 1)
        Status.FUNDED = false := by
  refine ⟨by decide, by decide, by decide⟩

/-- Claim C1, amended: the status only ever changes along the edges the
handlers actually realize — accept `OPEN -> ACCEPTED`, submit
`{ACCEPTED, FUNDED} -> SUBMITTED`, dispute `any -> DISPUTED`,
deposit-confirm `any -> FUNDED`, release-confirm `any -> RELEASED`; the
two confirm actions are not restricted to the `ACCEPTED` resp.
`{SUBMITTED, FUNDED}` rows of the claimed table. -/
theorem C1_status_changes_follow_code_table (a : JobAction) (j j2 : Job)
    (h : stepJob a j = .ok j2) : codeEdge j.status a j2.status = true :=
  stepJob_codeEdge h

/-- Claim C1 witness: the accept edge on the fresh job is in the realized
table. -/
theorem C1_status_changes_follow_code_table_witness :
    codeEdge demoJob.status (JobAction.accept "fl" 1)
      { demoJob with freelancerAddress := some "fl",
                     status := Status.ACCEPTED, updatedAt := 1 }.status = true :=
  C1_status_changes_follow_code_table (JobAction.accept "fl" 1) demoJob
    { demoJob with freelancerAddress := some "fl",
                   status := Status.ACCEPTED, updatedAt := 1 } (by decide)

/-- Claim C2, counterexample: deposit-confirm called with the correct
client identity on a job whose status is `OPEN` (not `ACCEPTED`) succeeds
and mutates the job, instead of failing with an invalid-transition
error. -/
theorem C2_deposit_confirm_counterexample :
    demoJob.status ≠ Status.ACCEPTED ∧ demoJob.clientAddress = "client" ∧
    depositConfirmJob "client" "h1" 1 demoJob =
      .ok { demoJob with escrowDeposited := 5, escrowOpHashes := ["h1"],
                         status := .FUNDED, updatedAt := 1 } := by
  refine ⟨by decide, by decide, by decide⟩

/-- Claim C2, amended: deposit-confirm checks only that the fields are
present and that the caller is the client; with those satisfied it
succeeds from every current status, and no input ever produces an
invalid-transition error from this handler. -/
theorem C2_deposit_confirm_no_status_check (j : Job) (fromPkh opHash : String)
    (t : Nat) (hid : j.clientAddress = fromPkh) (hp : fromPkh ≠ "")
    (hh : opHash ≠ "") :
    depositConfirmJob fromPkh opHash t j =
      .ok { j with escrowDeposited := j.amountMutez,
                   escrowOpHashes := j.escrowOpHashes ++ [opHash],
                   status := .FUNDED, updatedAt := t } ∧
    ∀ (j2 : Job) (p h2 : String) (t2 : Nat) (st : Status) (act : String),
      depositConfirmJob p h2 t2 j2 ≠ .error (.invalidTransition st act) := by
  constructor
  · simp [depositConfirmJob, hid, hp, hh]
  · intro j2 p h2 t2 st act
    unfold depositConfirmJob
    repeat' split
    all_goals simp

/-- Claim C2 witness: on the fresh job the amended statement holds at a
concrete input. -/
theorem C2_deposit_confirm_no_status_check_witness :
    depositConfirmJob "client" "h1" 1 demoJob =
      .ok { demoJob with escrowDeposited := demoJob.amountMutez,
                         escrowOpHashes := demoJob.escrowOpHashes ++ ["h1"],
                         status := .FUNDED, updatedAt := 1 } ∧
    ∀ (j2 : Job) (p h2 : String) (t2 : Nat) (st : Status) (act : String),
      depositConfirmJob p h2 t2 j2 ≠ .error (.invalidTransition st act) :=
  C2_deposit_confirm_no_status_check demoJob "client" "h1" 1 (by decide)
    (by decide) (by decide)

/-- Claim C3, counterexample: release-confirm followed by dispute reaches
a job whose `release` record is set while its status is `DISPUTED`, so
`release` non-null does not imply status `RELEASED`. -/
theorem C3_release_iff_counterexample :
    (runActions demoJob [JobAction.releaseConfirm "client" "r1" 1,
        JobAction.dispute "client" "why" 2]).release = some ⟨"r1", 1⟩ ∧
    (runActions demoJob [JobAction.releaseConfirm "client" "r1" 1,
        JobAction.dispute "client" "why" 2]).status = Status.DISPUTED := by
  refine ⟨by decide, by decide⟩

/-- Claim C3, amended: for every reachable job only one direction holds —
a job in status `RELEASED` has a non-null `release` record; the converse
fails because dispute (and the unguarded confirms) can move a released job
to another status without clearing `release`. -/
theorem C3_released_implies_release_set (id title description : String)
    (amountMutez : Int) (clientAddress : String) (t : Nat)
    (as : List JobAction)
    (h : (runActions (createJob id title description amountMutez
        clientAddress t) as).status = Status.RELEASED) :
    (runActions (createJob id title description amountMutez clientAddress t)
        as).release.isSome :=
  (jobInv_run _ as (jobInv_create id title description amountMutez
    clientAddress t)).1 h

/-- Claim C3 witness: after a release-confirm on the fresh job the status
is `RELEASED` and the implication produces the release record. -/
theorem C3_released_implies_release_set_witness :
    (runActions (createJob "j1" "Job" "" 5 "client" 0)
        [JobAction.releaseConfirm "client" "r1" 1]).status = Status.RELEASED ∧
    (runActions (createJob "j1" "Job" "" 5 "client" 0)
        [JobAction.releaseConfirm "client" "r1" 1]).release.isSome :=
  ⟨by decide, C3_released_implies_release_set "j1" "Job" "" 5 "client" 0
    [JobAction.releaseConfirm "client" "r1" 1] (by decide)⟩

/-- Claim C4, counterexample: the unguarded confirms reach `FUNDED` and
`RELEASED` with no freelancer assigned — a deposit-confirm straight from
`OPEN` yields a `FUNDED` job with `freelancerAddress` null, and a
release-confirm straight from `OPEN` yields a `RELEASED` job with
`freelancerAddress` null. -/
theorem C4_counterexample_funded_without_freelancer :
    ((applyAction demoJob (JobAction.depositConfirm "client" "h1" 1)).status
        = Status.FUNDED ∧
     (applyAction demoJob (JobAction.depositConfirm "client" "h1" 1)).freelancerAddress
        = none) ∧
    ((applyAction demoJob (JobAction.releaseConfirm "client" "r1" 1)).status
        = Status.RELEASED ∧
     (applyAction demoJob (JobAction.releaseConfirm "client" "r1" 1)).freelancerAddress
        = none) := by
  refine ⟨⟨by decide, by decide⟩, ⟨by decide, by decide⟩⟩

/-- Claim C4, amended: for every reachable job, `freelancerAddress` is
non-null when the status is `ACCEPTED` or `SUBMITTED`; the statuses
`FUNDED` and `RELEASED` can be reached with a null freelancer through the
unguarded confirm handlers. -/
theorem C4_freelancer_set_in_accepted_submitted (id title description : String)
    (amountMutez : Int) (clientAddress : String) (t : Nat)
    (as : List JobAction)
    (h : (runActions (createJob id title description amountMutez
          clientAddress t) as).status = Status.ACCEPTED ∨
        (runActions (createJob id title description amountMutez
          clientAddress t) as).status = Status.SUBMITTED) :
    (runActions (createJob id title description amountMutez clientAddress t)
        as).freelancerAddress.isSome :=
  (jobInv_run _ as (jobInv_create id title description amountMutez
    clientAddress t)).2 h

/-- Claim C4 witness: after an accept on the fresh job the status is
`ACCEPTED` and the freelancer is assigned. -/
theorem C4_freelancer_set_in_accepted_submitted_witness :
    (runActions (createJob "j1" "Job" "" 5 "client" 0)
        [JobAction.accept "fl" 1]).status = Status.ACCEPTED ∧
    (runActions (createJob "j1" "Job" "" 5 "client" 0)
        [JobAction.accept "fl" 1]).freelancerAddress.isSome :=
  ⟨by decide, C4_freelancer_set_in_accepted_submitted "j1" "Job" "" 5 "client" 0
    [JobAction.accept "fl" 1] (Or.inl (by decide))⟩

/-- Claim C5, counterexample: with a configured escrow address, a
deposit-prepare by the client for 10 major units returns an instruction
whose `kind` field is the string `transaction` — not `transfer` as the
claim states (and its `amount` field is the decimal string of the scaled
integer, `10000000`). -/
theorem C5_kind_counterexample :
    depositPrepareJob (some "tz1Escrow") "client" 10 demoJob =
      .ok [⟨"transaction", "tz1Escrow", "10000000"⟩] ∧
    "transaction" ≠ "transfer" := by
  constructor
  · have h : toMutez 10 = 10000000 := by norm_num [toMutez]
    simp [depositPrepareJob, demoJob, createJob, h]
    decide
  · decide

/-- Claim C5, amended: deposit-prepare with the client identity and a
configured escrow destination returns one unsigned instruction whose kind
is `transaction` (not `transfer`), whose destination is the configured
escrow address, and whose amount is the decimal string of the integer
nearest to `x * 10^6` (within one half, by the floor-of-plus-one-half
rounding); with no configured destination it fails with the
misconfigured error. -/
theorem C5_deposit_prepare_instruction (j : Job) (fromPkh ea : String)
    (x : ℚ) (hid : j.clientAddress = fromPkh) (hp : fromPkh ≠ "")
    (hea : ea ≠ "") :
    depositPrepareJob (some ea) fromPkh x j =
      .ok [⟨"transaction", ea, toString (toMutez x)⟩] ∧
    (toMutez x : ℚ) - x * 1000000 ≤ 1 / 2 ∧
    x * 1000000 - (toMutez x : ℚ) ≤ 1 / 2 ∧
    depositPrepareJob none fromPkh x j =
      .error (.misconfigured "ESCROW_ADDRESS not configured on server (.env)") := by
  refine ⟨by simp [depositPrepareJob, hid, hp, hea], ?_, ?_,
    by simp [depositPrepareJob, hid, hp]⟩
  · have h1 := Int.floor_le (x * 1000000 + 1 / 2)
    unfold toMutez
    linarith
  · have h2 := Int.sub_one_lt_floor (x * 1000000 + 1 / 2)
    unfold toMutez
    linarith

/-- Claim C5 witness: the amended statement at the fresh job, escrow
address `tz1Escrow` and amount 10. -/
theorem C5_deposit_prepare_instruction_witness :
    depositPrepareJob (some "tz1Escrow") "client" 10 demoJob =
      .ok [⟨"transaction", "tz1Escrow", toString (toMutez 10)⟩] ∧
    (toMutez 10 : ℚ) - 10 * 1000000 ≤ 1 / 2 ∧
    10 * 1000000 - (toMutez 10 : ℚ) ≤ 1 / 2 ∧
    depositPrepareJob none "client" 10 demoJob =
      .error (.misconfigured "ESCROW_ADDRESS not configured on server (.env)") :=
  C5_deposit_prepare_instruction demoJob "client" "tz1Escrow" 10 (by decide)
    (by decide) (by decide)

/-- Claim C6, counterexample: a dispute raised by an identity that is
neither the client nor any assigned freelancer succeeds and mutates the
job instead of failing with a forbidden error. -/
theorem C6_forbidden_counterexample :
    "stranger" ≠ demoJob.clientAddress ∧ demoJob.freelancerAddress = none ∧
    disputeJob "stranger" "scam" 1 demoJob =
      .ok { demoJob with dispute := some ⟨"stranger", "scam", 1⟩,
                         status := .DISPUTED, updatedAt := 1 } := by
  refine ⟨by decide, by decide, by decide⟩

/-- Claim C6, amended: the dispute handler performs no role check at all —
any non-empty caller identity with a non-empty reason succeeds from any
status and records the dispute, and no input ever produces a forbidden
error from this handler. -/
theorem C6_dispute_no_role_check (j : Job) (pkh reason : String) (t : Nat)
    (hp : pkh ≠ "") (hr : reason ≠ "") :
    disputeJob pkh reason t j =
      .ok { j with dispute := some ⟨pkh, reason, t⟩,
                   status := .DISPUTED, updatedAt := t } ∧
    ∀ (j2 : Job) (p r : String) (t2 : Nat) (msg : String),
      disputeJob p r t2 j2 ≠ .error (.forbidden msg) := by
  constructor
  · simp [disputeJob, hp, hr]
  · intro j2 p r t2 msg
    unfold disputeJob
    repeat' split
    all_goals simp

/-- Claim C6 witness: the amended statement at a concrete stranger
identity. -/
theorem C6_dispute_no_role_check_witness :
    disputeJob "stranger" "scam" 1 demoJob =
      .ok { demoJob with dispute := some ⟨"stranger", "scam", 1⟩,
                         status := .DISPUTED, updatedAt := 1 } ∧
    ∀ (j2 : Job) (p r : String) (t2 : Nat) (msg : String),
      disputeJob p r t2 j2 ≠ .error (.forbidden msg) :=
  C6_dispute_no_role_check demoJob "stranger" "scam" 1 (by decide) (by decide)

/-- Claim C7, confirmed: every handler checks all failure conditions
before its first mutation, so a request whose response is an error of any
kind leaves the whole store exactly as it was. -/
theorem C7_error_leaves_store_unchanged (ea : Option String) (newId : String)
    (t : Nat) (req : Request) (s : Store) (e : ApiError) :
    (handle ea newId t req s).2 = .error e →
      (handle ea newId t req s).1 = s := by
  cases req <;> unfold handle <;> dsimp only <;> repeat' split
  all_goals simp

/-- Claim C7 witness: a lookup of an unknown id fails with not-found and
leaves the empty store unchanged. -/
theorem C7_error_leaves_store_unchanged_witness :
    (handle none "n" 0 (Request.getJob "x") ([] : Store)).2 =
      .error ApiError.notFound ∧
    (handle none "n" 0 (Request.getJob "x") ([] : Store)).1 = [] :=
  ⟨rfl, C7_error_leaves_store_unchanged none "n" 0 (Request.getJob "x") []
    ApiError.notFound rfl⟩

/-- Claim C8, confirmed: the happy-path sequence create, accept,
deposit-prepare, deposit-confirm, submit, release-prepare,
release-confirm — each with the proper caller identity, non-empty fields
and a configured escrow address — succeeds at every step and ends with the
job `RELEASED` and `release` holding the transaction reference passed to
the final confirm call. -/
theorem C8_happy_path (id title description clientAddress freelancer workUrl
    ea ref1 ref2 : String) (amountMutez : Int) (x : ℚ) (t1 t2 t3 t4 t5 : Nat)
    (_htitle : title ≠ "") (hclient : clientAddress ≠ "") (hfl : freelancer ≠ "")
    (hwu : workUrl ≠ "") (hea : ea ≠ "") (href1 : ref1 ≠ "") (href2 : ref2 ≠ "") :
    ∃ j2 j3 j4 j5 ops1 ops2,
      acceptJob freelancer t2
          (createJob id title description amountMutez clientAddress t1) = .ok j2 ∧
      depositPrepareJob (some ea) clientAddress x j2 = .ok ops1 ∧
      depositConfirmJob clientAddress ref1 t3 j2 = .ok j3 ∧
      submitJob freelancer workUrl t4 j3 = .ok j4 ∧
      releasePrepareJob clientAddress j4 = .ok ops2 ∧
      releaseConfirmJob clientAddress ref2 t5 j4 = .ok j5 ∧
      j5.status = Status.RELEASED ∧ j5.release = some ⟨ref2, t5⟩ := by
  have h1 : acceptJob freelancer t2
      (createJob id title description amountMutez clientAddress t1) =
      .ok { createJob id title description amountMutez clientAddress t1 with
              freelancerAddress := some freelancer, status := .ACCEPTED,
              updatedAt := t2 } := by
    simp [acceptJob, createJob, hfl]
  have h2 : depositPrepareJob (some ea) clientAddress x
      { createJob id title description amountMutez clientAddress t1 with
          freelancerAddress := some freelancer, status := .ACCEPTED,
          updatedAt := t2 } =
      .ok [⟨"transaction", ea, toString (toMutez x)⟩] := by
    simp [depositPrepareJob, createJob, hclient, hea]
  have h3 : depositConfirmJob clientAddress ref1 t3
      { createJob id title description amountMutez clientAddress t1 with
          freelancerAddress := some freelancer, status := .ACCEPTED,
          updatedAt := t2 } =
      .ok { createJob id title description amountMutez clientAddress t1 with
              freelancerAddress := some freelancer, status := .FUNDED,
              updatedAt := t3, escrowDeposited := amountMutez,
              escrowOpHashes := [ref1] } := by
    simp [depositConfirmJob, createJob, hclient, href1]
  have h4 : submitJob freelancer workUrl t4
      { createJob id title description amountMutez clientAddress t1 with
          freelancerAddress := some freelancer, status := .FUNDED,
          updatedAt := t3, escrowDeposited := amountMutez,
          escrowOpHashes := [ref1] } =
      .ok { createJob id title description amountMutez clientAddress t1 with
              freelancerAddress := some freelancer, status := .SUBMITTED,
              updatedAt := t4, escrowDeposited := amountMutez,
              escrowOpHashes := [ref1], submission := some ⟨workUrl, t4⟩ } := by
    simp [submitJob, createJob, hfl, hwu]
  have h5 : releasePrepareJob clientAddress
      { createJob id title description amountMutez clientAddress t1 with
          freelancerAddress := some freelancer, status := .SUBMITTED,
          updatedAt := t4, escrowDeposited := amountMutez,
          escrowOpHashes := [ref1], submission := some ⟨workUrl, t4⟩ } =
      .ok [⟨"transaction", freelancer, toString amountMutez⟩] := by
    simp [releasePrepareJob, createJob, hclient, hfl]
  have h6 : releaseConfirmJob clientAddress ref2 t5
      { createJob id title description amountMutez clientAddress t1 with
          freelancerAddress := some freelancer, status := .SUBMITTED,
          updatedAt := t4, escrowDeposited := amountMutez,
          escrowOpHashes := [ref1], submission := some ⟨workUrl, t4⟩ } =
      .ok { createJob id title description amountMutez clientAddress t1 with
              freelancerAddress := some freelancer, status := .RELEASED,
              updatedAt := t5, escrowDeposited := amountMutez,
              escrowOpHashes := [ref1], submission := some ⟨workUrl, t4⟩,
              release := some ⟨ref2, t5⟩ } := by
    simp [releaseConfirmJob, createJob, hclient, href2]
  exact ⟨_, _, _, _, _, _, h1, h2, h3, h4, h5, h6, rfl, rfl⟩

/-- Claim C8 witness: the happy path at concrete inputs. -/
theorem C8_happy_path_witness :
    ∃ j2 j3 j4 j5 ops1 ops2,
      acceptJob "fl" 2 (createJob "j1" "Job" "" 5 "client" 1) = .ok j2 ∧
      depositPrepareJob (some "tz1Escrow") "client" 10 j2 = .ok ops1 ∧
      depositConfirmJob "client" "h1" 3 j2 = .ok j3 ∧
      submitJob "fl" "http-work" 4 j3 = .ok j4 ∧
      releasePrepareJob "client" j4 = .ok ops2 ∧
      releaseConfirmJob "client" "r2" 5 j4 = .ok j5 ∧
      j5.status = Status.RELEASED ∧ j5.release = some ⟨"r2", 5⟩ :=
  C8_happy_path "j1" "Job" "" "client" "fl" "http-work" "tz1Escrow" "h1" "r2"
    5 10 1 2 3 4 5 (by decide) (by decide) (by decide) (by decide) (by decide)
    (by decide) (by decide)

/-- Claim C9, confirmed: a deposit-prepare request never changes the
store, and repeating it immediately with identical arguments returns a
structurally identical response against an unchanged store. -/
theorem C9_deposit_prepare_idempotent (ea : Option String) (newId : String)
    (t : Nat) (id fromPkh : String) (x : ℚ) (s : Store) :
    (handle ea newId t (.depositPrepare id fromPkh x) s).1 = s ∧
    handle ea newId t (.depositPrepare id fromPkh x)
        ((handle ea newId t (.depositPrepare id fromPkh x) s).1) =
      handle ea newId t (.depositPrepare id fromPkh x) s := by
  have h1 : (handle ea newId t (.depositPrepare id fromPkh x) s).1 = s := by
    unfold handle
    dsimp only
    repeat' split
    all_goals rfl
  exact ⟨h1, by rw [h1]⟩

/-- Claim C10, counterexample: a job created with amount 0 has
`escrow.deposited` equal to its amount although no deposit-confirm has
ever succeeded, refuting the stated equivalence. -/
theorem C10_zero_amount_counterexample :
    (runCount (createJob "j0" "Job" "" 0 "client" 0, 0) []).2 = 0 ∧
    (runCount (createJob "j0" "Job" "" 0 "client" 0, 0) []).1.escrowDeposited =
      (runCount (createJob "j0" "Job" "" 0 "client" 0, 0) []).1.amountMutez := by
  refine ⟨by decide, by decide⟩

/-- Claim C10, amended: along every action sequence, counting the
successful deposit-confirm calls, `escrow.deposited` is 0 or exactly the
job's amount; it equals the amount whenever at least one deposit-confirm
succeeded, and when the amount is nonzero the equivalence also holds in
the other direction; repeated confirms never accumulate, and the op-hash
list gains exactly one entry per successful confirm. -/
theorem C10_escrow_deposit_invariant (id title description : String)
    (amountMutez : Int) (clientAddress : String) (t : Nat)
    (as : List JobAction) :
    ((runCount (createJob id title description amountMutez clientAddress t,
        0) as).1.escrowDeposited = 0 ∨
     (runCount (createJob id title description amountMutez clientAddress t,
        0) as).1.escrowDeposited =
       (runCount (createJob id title description amountMutez clientAddress t,
        0) as).1.amountMutez) ∧
    (1 ≤ (runCount (createJob id title description amountMutez clientAddress t,
        0) as).2 →
      (runCount (createJob id title description amountMutez clientAddress t,
        0) as).1.escrowDeposited =
        (runCount (createJob id title description amountMutez clientAddress t,
        0) as).1.amountMutez) ∧
    ((runCount (createJob id title description amountMutez clientAddress t,
        0) as).1.amountMutez ≠ 0 →
      ((runCount (createJob id title description amountMutez clientAddress t,
        0) as).1.escrowDeposited =
         (runCount (createJob id title description amountMutez clientAddress t,
        0) as).1.amountMutez ↔
       1 ≤ (runCount (createJob id title description amountMutez clientAddress t,
        0) as).2)) ∧
    (runCount (createJob id title description amountMutez clientAddress t,
        0) as).1.escrowOpHashes.length =
      (runCount (createJob id title description amountMutez clientAddress t,
        0) as).2 := by
  have h0 : EscInv (createJob id title description amountMutez clientAddress t,
      0) := ⟨by simp [createJob], fun _ => by simp [createJob],
    fun h => absurd rfl h⟩
  rcases escInv_run _ as h0 with ⟨hlen, hzero, hpos⟩
  refine ⟨?_, ?_, ?_, hlen⟩
  · by_cases hn : (runCount (createJob id title description amountMutez
        clientAddress t, 0) as).2 = 0
    · exact Or.inl (hzero hn)
    · exact Or.inr (hpos hn)
  · intro hge
    exact hpos (by omega)
  · intro hamt
    constructor
    · intro hdep
      by_cases hn : (runCount (createJob id title description amountMutez
          clientAddress t, 0) as).2 = 0
      · exact absurd (hdep.symm.trans (hzero hn)) hamt
      · omega
    · intro hge
      exact hpos (by omega)
